import Mathlib

/-!
Verification development for the session-scoped conversation/feedback
orchestration of the AI Communication Skills Coach repository.

The two serverless request handlers are embedded as pure Lean functions:

* `chatHandler`    — `supabase/functions/chat/index.ts`
* `feedbackHandler`— the feedback Edge Function (same file layout, feedback
  endpoint): session lookup, transcript guard, evaluation prompt, model
  call, JSON parse, feedback insert, session update.

External collaborators are made explicit: the persisted store is a `Db`
value, the model-inference API is an oracle function
`OpenAIRequest → OpenAIResult`, and the wall clock is a `now : String`
argument (the handler calls `new Date().toISOString()` exactly once).
Every store access and outbound model call is also recorded in an
effect trace so that frame and ordering properties can be stated.

`JSON.parse` of the model reply is embedded as `jsonParse`, a
recursive-descent parser for the JSON fragment the handlers exercise
(objects, arrays, strings with escapes, decimal numbers without
exponents, booleans, null).  Numbers are represented exactly as
`mantissa / 10 ^ exp10` to avoid floating point.
-/

/-- Left brace character, kept out of string literals. -/
def lbrace : Char := Char.ofNat 123

/-- Right brace character, kept out of string literals. -/
def rbrace : Char := Char.ofNat 125

/-- Apostrophe character, kept out of string literals. -/
def apos : String := String.mk [Char.ofNat 39]

/-- JSON values as produced by parsing a model reply.  A number is
`mantissa / 10 ^ exp10`, so the integer literal `4` is `num 4 0`. -/
inductive Json where
  | null : Json
  | bool (b : Bool) : Json
  | num (mantissa : Int) (exp10 : Nat) : Json
  | str (s : String) : Json
  | arr (elems : List Json) : Json
  | obj (fields : List (String × Json)) : Json

/-- JavaScript property access `j.key` on a parsed JSON value:
`none` models `undefined`.  Duplicate keys follow `JSON.parse`, where the
last occurrence wins. -/
def Json.getField : Json → String → Option Json
  | .obj fields, key => fields.foldl (fun acc kv => if kv.1 == key then some kv.2 else acc) none
  | _, _ => none

def isWsChar (c : Char) : Bool := c == ' ' || c == '\n' || c == '\t' || c == '\r'

def skipWs : List Char → List Char
  | [] => []
  | c :: cs => if isWsChar c then skipWs cs else c :: cs

def isDigitChar (c : Char) : Bool := '0' ≤ c && c ≤ '9'

def hexVal (c : Char) : Option Nat :=
  if isDigitChar c then some (c.toNat - 48)
  else if 'a' ≤ c && c ≤ 'f' then some (c.toNat - 87)
  else if 'A' ≤ c && c ≤ 'F' then some (c.toNat - 55)
  else none

def hex4 (a b c d : Char) : Option Nat :=
  match hexVal a, hexVal b, hexVal c, hexVal d with
  | some x, some y, some z, some w => some (((x * 16 + y) * 16 + z) * 16 + w)
  | _, _, _, _ => none

def unescapeChar (e : Char) : Option Char :=
  if e == '"' then some '"'
  else if e == '\\' then some '\\'
  else if e == '/' then some '/'
  else if e == 'b' then some (Char.ofNat 8)
  else if e == 'f' then some (Char.ofNat 12)
  else if e == 'n' then some '\n'
  else if e == 'r' then some '\r'
  else if e == 't' then some '\t'
  else none

/-- Body of a JSON string literal, after the opening quote: returns the
decoded characters and the remaining input after the closing quote. -/
def parseStringBody : List Char → Option (List Char × List Char)
  | [] => none
  | c :: cs =>
    if c == '"' then some ([], cs)
    else if c == '\\' then
      match cs with
      | [] => none
      | e :: cs2 =>
        if e == 'u' then
          match cs2 with
          | a :: b :: c2 :: d :: cs3 =>
            match hex4 a b c2 d with
            | some n => (parseStringBody cs3).map (fun p => (Char.ofNat n :: p.1, p.2))
            | none => none
          | _ => none
        else
          match unescapeChar e with
          | some ch => (parseStringBody cs2).map (fun p => (ch :: p.1, p.2))
          | none => none
    else if c.toNat < 32 then none
    else (parseStringBody cs).map (fun p => (c :: p.1, p.2))

def takeDigits : List Char → List Char × List Char
  | [] => ([], [])
  | c :: cs =>
    if isDigitChar c then
      let p := takeDigits cs
      (c :: p.1, p.2)
    else ([], c :: cs)

def natOfDigits (ds : List Char) : Nat :=
  ds.foldl (fun a c => a * 10 + (c.toNat - 48)) 0

/-- Decimal number literal: optional minus, digits, optional fraction.
Exponent notation is outside the fragment the handlers exercise. -/
def parseNumber (cs : List Char) : Option (Json × List Char) :=
  let signed : Bool × List Char := match cs with
    | c :: r => if c == '-' then (true, r) else (false, cs)
    | [] => (false, cs)
  let ip := takeDigits signed.2
  if ip.1.isEmpty then none
  else
    let intPart := natOfDigits ip.1
    match ip.2 with
    | c :: r =>
      if c == '.' then
        let fp := takeDigits r
        if fp.1.isEmpty then none
        else
          let mant : Int := Int.ofNat (intPart * 10 ^ fp.1.length + natOfDigits fp.1)
          some (.num (if signed.1 then -mant else mant) fp.1.length, fp.2)
      else some (.num (if signed.1 then -(Int.ofNat intPart) else Int.ofNat intPart) 0, c :: r)
    | [] => some (.num (if signed.1 then -(Int.ofNat intPart) else Int.ofNat intPart) 0, [])

mutual

def parseValue : Nat → List Char → Option (Json × List Char)
  | 0, _ => none
  | Nat.succ fuel, cs =>
    match skipWs cs with
    | [] => none
    | c :: rest =>
      if c == '"' then
        match parseStringBody rest with
        | some (s, r) => some (.str (String.mk s), r)
        | none => none
      else if c == lbrace then
        match skipWs rest with
        | d :: r2 =>
          if d == rbrace then some (.obj [], r2)
          else
            match parseMembers fuel (d :: r2) with
            | some (ms, r) => some (.obj ms, r)
            | none => none
        | [] => none
      else if c == '[' then
        match skipWs rest with
        | d :: r2 =>
          if d == ']' then some (.arr [], r2)
          else
            match parseElems fuel (d :: r2) with
            | some (vs, r) => some (.arr vs, r)
            | none => none
        | [] => none
      else if c == 't' then
        match rest with
        | 'r' :: 'u' :: 'e' :: r => some (.bool true, r)
        | _ => none
      else if c == 'f' then
        match rest with
        | 'a' :: 'l' :: 's' :: 'e' :: r => some (.bool false, r)
        | _ => none
      else if c == 'n' then
        match rest with
        | 'u' :: 'l' :: 'l' :: r => some (.null, r)
        | _ => none
      else if c == '-' || isDigitChar c then parseNumber (c :: rest)
      else none

def parseMembers : Nat → List Char → Option (List (String × Json) × List Char)
  | 0, _ => none
  | Nat.succ fuel, cs =>
    match skipWs cs with
    | [] => none
    | c :: rest =>
      if c == '"' then
        match parseStringBody rest with
        | some (k, r1) =>
          match skipWs r1 with
          | ':' :: r2 =>
            match parseValue fuel r2 with
            | some (v, r3) =>
              match skipWs r3 with
              | ',' :: r4 =>
                match parseMembers fuel r4 with
                | some (ms, r5) => some ((String.mk k, v) :: ms, r5)
                | none => none
              | d :: r4 => if d == rbrace then some ([(String.mk k, v)], r4) else none
              | [] => none
            | none => none
          | _ => none
        | none => none
      else none

def parseElems : Nat → List Char → Option (List Json × List Char)
  | 0, _ => none
  | Nat.succ fuel, cs =>
    match parseValue fuel cs with
    | some (v, r1) =>
      match skipWs r1 with
      | ',' :: r2 =>
        match parseElems fuel r2 with
        | some (vs, r3) => some (v :: vs, r3)
        | none => none
      | d :: r2 => if d == ']' then some ([v], r2) else none
      | [] => none
    | none => none

end

/-- `JSON.parse`: parse the whole input, allowing trailing whitespace
only.  Returns `none` where `JSON.parse` would throw a `SyntaxError`. -/
def jsonParse (s : String) : Option Json :=
  match parseValue (s.length + 1) s.data with
  | some (j, rest) => if (skipWs rest).isEmpty then some j else none
  | none => none


/-! ## Data model (persisted store rows, schema `part_000` lines 74-140) -/

/-- `scenario` table columns the handlers select. -/
structure ScenarioRow where
  id : String
  title : String
  objective : String
  ai_persona : String
deriving DecidableEq, Repr

/-- `session` table columns the handlers touch.  `ended_at` is the
nullable ISO timestamp written on completion. -/
structure SessionRow where
  id : String
  user_id : String
  scenario_id : String
  status : String
  ended_at : Option String
deriving DecidableEq, Repr

/-- `message` table columns the handlers select, with the creation
timestamp modelled as a `Nat` ordering key. -/
structure MessageRow where
  id : Nat
  session_id : String
  role : String
  content : String
  created_at : Nat
deriving DecidableEq, Repr

/-- The `scores` jsonb object built by the feedback handler.  Each field
is whatever `feedbackJson.<key>` evaluated to; `none` models the
JavaScript `undefined` that `JSON.stringify` drops. -/
structure ScoresObj where
  clarity : Option Json
  empathy : Option Json
  assertiveness : Option Json

/-- `feedback` table row produced by the insert. -/
structure FeedbackRow where
  id : Nat
  session_id : String
  summary : Json
  scores : ScoresObj
  recommendations : Json
  created_at : String

/-- The persisted store. -/
structure Db where
  scenarios : List ScenarioRow
  sessions : List SessionRow
  messages : List MessageRow
  feedbacks : List FeedbackRow

/-- Process environment (`Deno.env`).  The model-inference key is the
only one the handlers test for absence. -/
structure Env where
  supabaseUrl : String
  supabaseKey : String
  openaiKey : Option String

/-- Chat endpoint request body (`ChatRequest` in chat/index.ts).
`is_initial` collapses `undefined` to `false`, `user_message` collapses
`undefined` to `""`, matching JavaScript truthiness at the use sites. -/
structure ChatRequest where
  session_id : String
  user_message : String
  is_initial : Bool
deriving DecidableEq, Repr

/-- Feedback endpoint request body. -/
structure FeedbackRequest where
  session_id : String
deriving DecidableEq, Repr

/-- One role-tagged message of a chat-completion request. -/
structure ChatMsg where
  role : String
  content : String
deriving DecidableEq, Repr

/-- Body of the `POST /v1/chat/completions` call.  `temperature10` is the
sampling temperature scaled by ten (the source writes the floating
literals 0.8 and 0.7), `maxTokens` is `max_tokens`. -/
structure OpenAIRequest where
  model : String
  messages : List ChatMsg
  temperature10 : Nat
  maxTokens : Nat
deriving DecidableEq, Repr

/-- Reply of the model-inference API: either the generated message
content (`choices[0].message.content`) or a non-2xx error body. -/
inductive OpenAIResult where
  | success (content : String)
  | apiError (body : String)

/-- The model-inference collaborator. -/
def Oracle := OpenAIRequest → OpenAIResult

/-- Insert payload for the `feedback` table. -/
structure FeedbackInsert where
  session_id : String
  summary : Option Json
  scores : ScoresObj
  recommendations : Option Json

/-- Observable side effects of one handler run, in order. -/
inductive Effect where
  | readSession (sessionId : String)
  | readMessages (sessionId : String)
  | openaiCall (req : OpenAIRequest)
  | insertFeedback (payload : FeedbackInsert)
  | updateSession (sessionId : String) (status : String) (endedAt : String)

/-! ## Store queries -/

/-- `.from('session').select(...).eq('id', sid).single()`. -/
def findSession (db : Db) (sid : String) : Option SessionRow :=
  db.sessions.find? (fun s => s.id == sid)

/-- The embedded `scenario(...)` resource of the session select; `none`
models a null embed, on which later property access throws. -/
def findScenario (db : Db) (scid : String) : Option ScenarioRow :=
  db.scenarios.find? (fun s => s.id == scid)

def msgLE (a b : MessageRow) : Prop := a.created_at ≤ b.created_at

instance : DecidableRel msgLE := fun a b => Nat.decLe a.created_at b.created_at

instance : IsTotal MessageRow msgLE := ⟨fun a b => Nat.le_total a.created_at b.created_at⟩

instance : IsTrans MessageRow msgLE := ⟨fun _ _ _ hab hbc => Nat.le_trans hab hbc⟩

/-- `.from('message').select('role, content').eq('session_id', sid).order('created_at')`:
the session transcript, oldest first. -/
def sessionMessages (db : Db) (sid : String) : List MessageRow :=
  List.insertionSort msgLE (db.messages.filter (fun m => m.session_id == sid))

/-! ## Prompt construction -/

def sysPromptPre : String :=
  "You are a professional communication coach simulating a real-world "

def sysPromptRole : String := " scenario.\nYour role: "

def sysPromptObjective : String := "\n\nObjective: "

def sysPromptTail : String :=
  "\n\nYour goal is to help the user practice effective conversation and improve their communication skills.\nKeep responses concise (2-3 sentences), natural, and human-like.\nStay in character and create a realistic, challenging but supportive practice environment.\n"

def sysPromptInitialTail : String :=
  "Start the conversation by introducing yourself and the scenario context."

def sysPromptRespondTail : String :=
  "Respond as your character would in this situation."

/-- The chat system instruction (template literal at chat/index.ts:55-63). -/
def chatSystemPrompt (scen : ScenarioRow) (isInitial : Bool) : String :=
  sysPromptPre ++ scen.title ++ sysPromptRole ++ scen.ai_persona ++
    sysPromptObjective ++ scen.objective ++ sysPromptTail ++
    (if isInitial then sysPromptInitialTail else sysPromptRespondTail)

/-- History row to chat-completion message (chat/index.ts:67-70). -/
def msgToChatMsg (m : MessageRow) : ChatMsg :=
  ⟨if m.role == "assistant" then "assistant" else "user", m.content⟩

/-- The `openaiMessages` array: system instruction, prior turns oldest
first, then — only when `!is_initial && user_message` is truthy — the
new user message (chat/index.ts:65-75). -/
def chatMessages (scen : ScenarioRow) (req : ChatRequest) (msgs : List MessageRow) : List ChatMsg :=
  ChatMsg.mk "system" (chatSystemPrompt scen req.is_initial) :: msgs.map msgToChatMsg ++
    (if !req.is_initial && req.user_message != "" then [ChatMsg.mk "user" req.user_message] else [])

/-- Chat model invocation body (chat/index.ts:83-88). -/
def chatOpenAIRequest (scen : ScenarioRow) (req : ChatRequest) (msgs : List MessageRow) : OpenAIRequest :=
  ⟨"gpt-4o-mini", chatMessages scen req msgs, 8, 200⟩

/-- The message list as the specification describes it, for comparison
with `chatMessages`: on every non-opening turn the new user message is
appended, with no non-emptiness condition. -/
def chatMessagesPerClaim (scen : ScenarioRow) (req : ChatRequest) (msgs : List MessageRow) :
    List ChatMsg :=
  ChatMsg.mk "system" (chatSystemPrompt scen req.is_initial) :: msgs.map msgToChatMsg ++
    (if req.is_initial then [] else [ChatMsg.mk "user" req.user_message])

/-- Transcript rendering for the evaluation prompt:
`` `${role === 'user' ? 'User' : 'Coach'}: ${content}` `` joined by
blank lines. -/
def renderTranscript (msgs : List MessageRow) : String :=
  String.intercalate "\n\n"
    (msgs.map (fun m => (if m.role == "user" then "User" else "Coach") ++ ": " ++ m.content))

def fbPromptScenario : String :=
  "You are an expert communication coach evaluating a practice conversation.\n\nScenario: "

def fbPromptObjective : String := "\nObjective: "

def fbPromptConversation : String := "\n\nConversation:\n"

/-- Metric instructions and required JSON shape of the evaluation
prompt; the braces of the JSON example are escaped, the apostrophes of
the source text are spliced via `apos`. -/
def fbPromptTail : String :=
  "\n\nEvaluate the user" ++ apos ++ "s communication during this conversation on these metrics (0-5 scale):\n1. Clarity - Was the message structured, concise, and easy to follow?\n2. Empathy - Did the user demonstrate understanding and emotional awareness?\n3. Assertiveness - Did the user communicate confidently and maintain appropriate boundaries?\n\nProvide your response in the following JSON format:\n\x7b\n  \"summary\": \"A brief 2-3 sentence overall assessment of the user" ++ apos ++ "s performance\",\n  \"clarity\": <number 0-5>,\n  \"empathy\": <number 0-5>,\n  \"assertiveness\": <number 0-5>,\n  \"recommendations\": \"Three specific, actionable recommendations for improvement, each on a new line starting with a bullet point\"\n\x7d\n\nRespond ONLY with valid JSON, no additional text."

/-- The `feedbackPrompt` template literal (feedback function). -/
def feedbackEvalPrompt (scen : ScenarioRow) (conversationText : String) : String :=
  fbPromptScenario ++ scen.title ++ fbPromptObjective ++ scen.objective ++
    fbPromptConversation ++ conversationText ++ fbPromptTail

def fbSystemMsg : String :=
  "You are an expert communication coach providing constructive feedback."

/-- Feedback model invocation body (temperature 0.7, max_tokens 500). -/
def feedbackOpenAIRequest (scen : ScenarioRow) (msgs : List MessageRow) : OpenAIRequest :=
  ⟨"gpt-4o-mini",
   [ChatMsg.mk "system" fbSystemMsg,
    ChatMsg.mk "user" (feedbackEvalPrompt scen (renderTranscript msgs))], 7, 500⟩

/-! ## Feedback persistence -/

/-- The nested `scores` object (feedback function):
`{clarity: feedbackJson.clarity, empathy: ..., assertiveness: ...}`. -/
def mkScores (fj : Json) : ScoresObj :=
  ⟨fj.getField "clarity", fj.getField "empathy", fj.getField "assertiveness"⟩

/-- The `.insert({session_id, summary, scores, recommendations})` payload. -/
def mkPayload (sid : String) (fj : Json) : FeedbackInsert :=
  ⟨sid, fj.getField "summary", mkScores fj, fj.getField "recommendations"⟩

/-- A JavaScript value is acceptable for a `NOT NULL` text column iff it
is neither `undefined` (dropped by serialization, so the column falls
back to NULL) nor `null`. -/
def notNullOk : Option Json → Bool
  | none => false
  | some .null => false
  | some _ => true

/-- Whether the feedback insert satisfies the table's NOT NULL
constraints on `summary` and `recommendations` (`scores` is always a
non-null object). -/
def insertAccepted (p : FeedbackInsert) : Bool :=
  notNullOk p.summary && notNullOk p.recommendations

def notNullViolationMsg : String :=
  "null value in column of relation feedback violates not-null constraint"

/-- The stored feedback row for an accepted payload. -/
def mkRow (db : Db) (p : FeedbackInsert) (now : String) : FeedbackRow :=
  ⟨db.feedbacks.length + 1, p.session_id, p.summary.getD Json.null, p.scores,
   p.recommendations.getD Json.null, now⟩

/-- `.from('feedback').insert(...).select().single()`: either the new
row and store, or the database error the handler re-throws. -/
def dbInsertFeedback (db : Db) (p : FeedbackInsert) (now : String) :
    Except String (FeedbackRow × Db) :=
  if insertAccepted p then
    let row := mkRow db p now
    .ok (row, { db with feedbacks := db.feedbacks ++ [row] })
  else .error notNullViolationMsg

/-- `.from('session').update({status: 'completed', ended_at: now}).eq('id', sid)`. -/
def applySessionUpdate (db : Db) (sid : String) (st : String) (endedAt : String) : Db :=
  { db with sessions := db.sessions.map (fun s =>
      if s.id == sid then { s with status := st, ended_at := some endedAt } else s) }

def optJsonField (k : String) : Option Json → List (String × Json)
  | some v => [(k, v)]
  | none => []

/-- `JSON.stringify` view of the scores object: `undefined` fields are
dropped. -/
def scoresJson (s : ScoresObj) : Json :=
  Json.obj (optJsonField "clarity" s.clarity ++ optJsonField "empathy" s.empathy ++
    optJsonField "assertiveness" s.assertiveness)

/-- The success response body of the feedback endpoint: the persisted
row as returned by `.select().single()`. -/
def feedbackRowJson (row : FeedbackRow) : Json :=
  Json.obj [("id", Json.num (Int.ofNat row.id) 0), ("session_id", Json.str row.session_id),
    ("summary", row.summary), ("scores", scoresJson row.scores),
    ("recommendations", row.recommendations), ("created_at", Json.str row.created_at)]

/-! ## HTTP layer -/

/-- CORS header block shared verbatim by both functions. -/
def corsHeaders : List (String × String) :=
  [("Access-Control-Allow-Origin", "*"),
   ("Access-Control-Allow-Methods", "GET, POST, PUT, DELETE, OPTIONS"),
   ("Access-Control-Allow-Headers", "Content-Type, Authorization, X-Client-Info, Apikey")]

structure HttpResponse where
  status : Nat
  headers : List (String × String)
  body : Option Json

def jsonResponseHeaders : List (String × String) :=
  corsHeaders ++ [("Content-Type", "application/json")]

/-- Preflight reply: `new Response(null, {status: 200, headers: corsHeaders})`. -/
def optionsResponse : HttpResponse := ⟨200, corsHeaders, none⟩

/-- Success reply (no explicit status, hence 200). -/
def successResponse (j : Json) : HttpResponse := ⟨200, jsonResponseHeaders, some j⟩

/-- Catch-all reply: `{error: message}` with status 500. -/
def errorResponse (msg : String) : HttpResponse :=
  ⟨500, jsonResponseHeaders, some (Json.obj [("error", Json.str msg)])⟩

def keyMissingMsg : String := "OpenAI API key not configured"

/-- `SyntaxError` raised by `await req.json()` on an unparseable body. -/
def invalidBodyMsg : String := "Unexpected token in request JSON"

def sessionNotFoundMsg : String := "Session not found"

def shortTranscriptMsg : String := "Not enough conversation for feedback"

/-- `TypeError` raised by reading `.title` of a null scenario embed. -/
def nullScenarioMsg : String := "Cannot read properties of null reading title"

/-- `SyntaxError` raised by `JSON.parse` on a malformed model reply. -/
def jsonSyntaxErrorMsg : String := "Unexpected token in JSON"

def apiErrorMsg (body : String) : String := "OpenAI API error: " ++ body

/-! ## Handlers -/

/-- Result of the `try` block of the chat handler. -/
structure ChatTryResult where
  result : Except String String
  trace : List Effect

/-- The chat handler `try` body (chat/index.ts:23-107). -/
def chatTry (env : Env) (body : Option ChatRequest) (db : Db) (oracle : Oracle) : ChatTryResult :=
  match env.openaiKey with
  | none => ⟨.error keyMissingMsg, []⟩
  | some _ =>
  match body with
  | none => ⟨.error invalidBodyMsg, []⟩
  | some req =>
  match findSession db req.session_id with
  | none => ⟨.error sessionNotFoundMsg, [Effect.readSession req.session_id]⟩
  | some sess =>
  let msgs := sessionMessages db req.session_id
  match findScenario db sess.scenario_id with
  | none =>
    ⟨.error nullScenarioMsg, [Effect.readSession req.session_id, Effect.readMessages req.session_id]⟩
  | some scen =>
  let oreq := chatOpenAIRequest scen req msgs
  let tr := [Effect.readSession req.session_id, Effect.readMessages req.session_id,
    Effect.openaiCall oreq]
  match oracle oreq with
  | .apiError e => ⟨.error (apiErrorMsg e), tr⟩
  | .success content => ⟨.ok content, tr⟩

/-- Full outcome of one handler invocation: HTTP response, store after
the run, effect trace. -/
structure Outcome where
  response : HttpResponse
  db : Db
  trace : List Effect

/-- Catch-all boundary of the chat handler: a thrown error becomes the
uniform 500 envelope, a produced reply becomes `{message: ...}`. -/
def chatDispatch (db : Db) : ChatTryResult → Outcome
  | ⟨.ok content, tr⟩ =>
    ⟨successResponse (Json.obj [("message", Json.str content)]), db, tr⟩
  | ⟨.error m, tr⟩ => ⟨errorResponse m, db, tr⟩

/-- The chat Edge Function: preflight check, `try` body, catch-all. -/
def chatHandler (env : Env) (method : String) (body : Option ChatRequest) (db : Db)
    (oracle : Oracle) : Outcome :=
  if method == "OPTIONS" then ⟨optionsResponse, db, []⟩
  else chatDispatch db (chatTry env body db oracle)

/-- Result of the `try` block of the feedback handler. -/
structure FbTryResult where
  result : Except String Json
  db : Db
  trace : List Effect

def fbErr (m : String) (db : Db) (tr : List Effect) : FbTryResult := ⟨.error m, db, tr⟩

/-- Insert-then-update tail of the feedback handler, entered with the
parsed model reply `fj`. -/
def feedbackInsertStep (db : Db) (sid : String) (now : String) (fj : Json)
    (tr : List Effect) : FbTryResult :=
  let payload := mkPayload sid fj
  let tr1 := tr ++ [Effect.insertFeedback payload]
  match dbInsertFeedback db payload now with
  | .error m => fbErr m db tr1
  | .ok (row, db1) =>
    ⟨.ok (feedbackRowJson row), applySessionUpdate db1 sid "completed" now,
     tr1 ++ [Effect.updateSession sid "completed" now]⟩

/-- The feedback handler `try` body: lookup, guard, prompt, model call,
parse, insert, update. -/
def feedbackTry (env : Env) (body : Option FeedbackRequest) (db : Db) (oracle : Oracle)
    (now : String) : FbTryResult :=
  match env.openaiKey with
  | none => fbErr keyMissingMsg db []
  | some _ =>
  match body with
  | none => fbErr invalidBodyMsg db []
  | some req =>
  match findSession db req.session_id with
  | none => fbErr sessionNotFoundMsg db [Effect.readSession req.session_id]
  | some sess =>
  let msgs := sessionMessages db req.session_id
  let tr1 := [Effect.readSession req.session_id, Effect.readMessages req.session_id]
  if msgs.length < 2 then fbErr shortTranscriptMsg db tr1
  else
    match findScenario db sess.scenario_id with
    | none => fbErr nullScenarioMsg db tr1
    | some scen =>
      let oreq := feedbackOpenAIRequest scen msgs
      let tr2 := tr1 ++ [Effect.openaiCall oreq]
      match oracle oreq with
      | .apiError e => fbErr (apiErrorMsg e) db tr2
      | .success content =>
        match jsonParse content with
        | none => fbErr jsonSyntaxErrorMsg db tr2
        | some fj => feedbackInsertStep db req.session_id now fj tr2

/-- Catch-all boundary of the feedback handler. -/
def fbDispatch : FbTryResult → Outcome
  | ⟨.ok j, db2, tr⟩ => ⟨successResponse j, db2, tr⟩
  | ⟨.error m, db2, tr⟩ => ⟨errorResponse m, db2, tr⟩

/-- The feedback Edge Function: preflight check, `try` body, catch-all. -/
def feedbackHandler (env : Env) (method : String) (body : Option FeedbackRequest) (db : Db)
    (oracle : Oracle) (now : String) : Outcome :=
  if method == "OPTIONS" then ⟨optionsResponse, db, []⟩
  else fbDispatch (feedbackTry env body db oracle now)

/-! ## Trace observations -/

/-- No chat-completion call appears in the trace. -/
def noOpenaiCall : List Effect → Bool
  | [] => true
  | .openaiCall _ :: _ => false
  | _ :: r => noOpenaiCall r

/-- First chat-completion request of the trace, if any. -/
def firstOpenaiCall : List Effect → Option OpenAIRequest
  | [] => none
  | .openaiCall q :: _ => some q
  | _ :: r => firstOpenaiCall r

/-- Every chat-completion request of the trace satisfies `p`. -/
def openaiCallsOk (p : OpenAIRequest → Bool) : List Effect → Bool
  | [] => true
  | .openaiCall q :: r => p q && openaiCallsOk p r
  | _ :: r => openaiCallsOk p r

/-- Every session update in the trace is preceded by a feedback insert;
`seen` records whether an insert has occurred yet. -/
def updateAfterInsert (seen : Bool) : List Effect → Bool
  | [] => true
  | .updateSession _ _ _ :: r => seen && updateAfterInsert seen r
  | .insertFeedback _ :: r => updateAfterInsert true r
  | _ :: r => updateAfterInsert seen r

/-- The trace contains a feedback insert whose payload the store
rejects. -/
def hasFailedInsert : List Effect → Bool
  | [] => false
  | .insertFeedback p :: r => !insertAccepted p || hasFailedInsert r
  | _ :: r => hasFailedInsert r

/-- The trace contains a session update. -/
def hasUpdate : List Effect → Bool
  | [] => false
  | .updateSession _ _ _ :: _ => true
  | _ :: r => hasUpdate r

/-- The effect is a store read or a model call, not a write. -/
def effectIsReadOrCall : Effect → Bool
  | .insertFeedback _ => false
  | .updateSession _ _ _ => false
  | _ => true

/-- Headers `hs` carry the whole CORS block. -/
def corsOk (hs : List (String × String)) : Bool :=
  corsHeaders.all (fun h => hs.contains h)

/-! ## Concrete fixtures for witnesses and counterexamples -/

def envOk : Env := ⟨"http://store.local", "service-role-key", some "sk-test"⟩

def scen0 : ScenarioRow :=
  ⟨"sc1", "Job Interview", "Practice answering questions with confidence", "A hiring manager"⟩

def sess0 : SessionRow := ⟨"s1", "u1", "sc1", "active", none⟩

def msgA : MessageRow := ⟨1, "s1", "assistant", "Hello, shall we begin?", 1⟩

def msgU : MessageRow := ⟨2, "s1", "user", "Yes, I am ready.", 2⟩

/-- Store with one session holding a two-message transcript. -/
def db0 : Db := ⟨[scen0], [sess0], [msgA, msgU], []⟩

/-- Store with one session holding a single message. -/
def dbShort : Db := ⟨[scen0], [sess0], [msgA], []⟩

def now0 : String := "2025-01-15T10:00:00.000Z"

def req0 : FeedbackRequest := ⟨"s1"⟩

def creq0 : ChatRequest := ⟨"s1", "Tell me about the role.", false⟩

/-- Non-initial chat turn carrying an empty user message. -/
def creqEmpty : ChatRequest := ⟨"s1", "", false⟩

/-- Model stub echoing the fixed well-formed evaluation payload of the
round-trip property. -/
def oracleWellFormed : Oracle := fun _ =>
  .success "\x7b\"summary\":\"ok\",\"clarity\":4,\"empathy\":3,\"assertiveness\":5,\"recommendations\":\"• a\\n• b\\n• c\"\x7d"

/-- Model stub returning valid JSON that carries no score fields. -/
def oracleNoScores : Oracle := fun _ =>
  .success "\x7b\"summary\":\"ok\",\"recommendations\":\"r\"\x7d"

/-- Model stub returning valid JSON without `summary`, so the feedback
insert violates the NOT NULL constraint. -/
def oracleNoSummary : Oracle := fun _ =>
  .success "\x7b\"clarity\":4,\"empathy\":3,\"assertiveness\":5\x7d"

/-- Model stub wrapping the JSON object in commentary text, which
`JSON.parse` rejects. -/
def oracleCommentary : Oracle := fun _ =>
  .success "Here is my evaluation: \x7b\"clarity\":4\x7d hope it helps"

/-- Model stub for chat turns. -/
def oracleReply : Oracle := fun _ => .success "Certainly, let us talk about the role."

/-! ## Branch characterizations -/

/-- Exhaustive description of the chat `try` body, one disjunct per
control-flow path. -/
theorem chatTry_cases (env : Env) (body : Option ChatRequest) (db : Db) (oracle : Oracle) :
    (env.openaiKey = none ∧ chatTry env body db oracle = ⟨.error keyMissingMsg, []⟩)
    ∨ (∃ key, env.openaiKey = some key ∧ body = none ∧
        chatTry env body db oracle = ⟨.error invalidBodyMsg, []⟩)
    ∨ (∃ key req, env.openaiKey = some key ∧ body = some req ∧
        findSession db req.session_id = none ∧
        chatTry env body db oracle =
          ⟨.error sessionNotFoundMsg, [Effect.readSession req.session_id]⟩)
    ∨ (∃ key req sess, env.openaiKey = some key ∧ body = some req ∧
        findSession db req.session_id = some sess ∧
        findScenario db sess.scenario_id = none ∧
        chatTry env body db oracle =
          ⟨.error nullScenarioMsg,
           [Effect.readSession req.session_id, Effect.readMessages req.session_id]⟩)
    ∨ (∃ key req sess scen e, env.openaiKey = some key ∧ body = some req ∧
        findSession db req.session_id = some sess ∧
        findScenario db sess.scenario_id = some scen ∧
        oracle (chatOpenAIRequest scen req (sessionMessages db req.session_id)) =
          .apiError e ∧
        chatTry env body db oracle =
          ⟨.error (apiErrorMsg e),
           [Effect.readSession req.session_id, Effect.readMessages req.session_id,
            Effect.openaiCall (chatOpenAIRequest scen req (sessionMessages db req.session_id))]⟩)
    ∨ (∃ key req sess scen content, env.openaiKey = some key ∧ body = some req ∧
        findSession db req.session_id = some sess ∧
        findScenario db sess.scenario_id = some scen ∧
        oracle (chatOpenAIRequest scen req (sessionMessages db req.session_id)) =
          .success content ∧
        chatTry env body db oracle =
          ⟨.ok content,
           [Effect.readSession req.session_id, Effect.readMessages req.session_id,
            Effect.openaiCall (chatOpenAIRequest scen req (sessionMessages db req.session_id))]⟩) := by
  rcases hk : env.openaiKey with _ | key
  · exact Or.inl ⟨rfl, by simp [chatTry, hk]⟩
  rcases hb : body with _ | req
  · exact Or.inr (Or.inl ⟨key, rfl, rfl, by simp [chatTry, hk, hb]⟩)
  rcases hs : findSession db req.session_id with _ | sess
  · exact Or.inr (Or.inr (Or.inl ⟨key, req, rfl, rfl, hs, by simp [chatTry, hk, hb, hs]⟩))
  rcases hc : findScenario db sess.scenario_id with _ | scen
  · exact Or.inr (Or.inr (Or.inr (Or.inl
      ⟨key, req, sess, rfl, rfl, hs, hc, by simp [chatTry, hk, hb, hs, hc]⟩)))
  rcases ho : oracle (chatOpenAIRequest scen req (sessionMessages db req.session_id)) with content | e
  · exact Or.inr (Or.inr (Or.inr (Or.inr (Or.inr
      ⟨key, req, sess, scen, content, rfl, rfl, hs, hc, ho,
       by simp [chatTry, hk, hb, hs, hc, ho]⟩))))
  · exact Or.inr (Or.inr (Or.inr (Or.inr (Or.inl
      ⟨key, req, sess, scen, e, rfl, rfl, hs, hc, ho,
       by simp [chatTry, hk, hb, hs, hc, ho]⟩))))

/-- Exhaustive description of the feedback `try` body, one disjunct per
control-flow path. -/
theorem feedbackTry_cases (env : Env) (body : Option FeedbackRequest) (db : Db)
    (oracle : Oracle) (now : String) :
    (env.openaiKey = none ∧ feedbackTry env body db oracle now = fbErr keyMissingMsg db [])
    ∨ (∃ key, env.openaiKey = some key ∧ body = none ∧
        feedbackTry env body db oracle now = fbErr invalidBodyMsg db [])
    ∨ (∃ key req, env.openaiKey = some key ∧ body = some req ∧
        findSession db req.session_id = none ∧
        feedbackTry env body db oracle now =
          fbErr sessionNotFoundMsg db [Effect.readSession req.session_id])
    ∨ (∃ key req sess, env.openaiKey = some key ∧ body = some req ∧
        findSession db req.session_id = some sess ∧
        (sessionMessages db req.session_id).length < 2 ∧
        feedbackTry env body db oracle now =
          fbErr shortTranscriptMsg db
            [Effect.readSession req.session_id, Effect.readMessages req.session_id])
    ∨ (∃ key req sess, env.openaiKey = some key ∧ body = some req ∧
        findSession db req.session_id = some sess ∧
        2 ≤ (sessionMessages db req.session_id).length ∧
        findScenario db sess.scenario_id = none ∧
        feedbackTry env body db oracle now =
          fbErr nullScenarioMsg db
            [Effect.readSession req.session_id, Effect.readMessages req.session_id])
    ∨ (∃ key req sess scen e, env.openaiKey = some key ∧ body = some req ∧
        findSession db req.session_id = some sess ∧
        2 ≤ (sessionMessages db req.session_id).length ∧
        findScenario db sess.scenario_id = some scen ∧
        oracle (feedbackOpenAIRequest scen (sessionMessages db req.session_id)) =
          .apiError e ∧
        feedbackTry env body db oracle now =
          fbErr (apiErrorMsg e) db
            [Effect.readSession req.session_id, Effect.readMessages req.session_id,
             Effect.openaiCall (feedbackOpenAIRequest scen (sessionMessages db req.session_id))])
    ∨ (∃ key req sess scen content, env.openaiKey = some key ∧ body = some req ∧
        findSession db req.session_id = some sess ∧
        2 ≤ (sessionMessages db req.session_id).length ∧
        findScenario db sess.scenario_id = some scen ∧
        oracle (feedbackOpenAIRequest scen (sessionMessages db req.session_id)) =
          .success content ∧
        jsonParse content = none ∧
        feedbackTry env body db oracle now =
          fbErr jsonSyntaxErrorMsg db
            [Effect.readSession req.session_id, Effect.readMessages req.session_id,
             Effect.openaiCall (feedbackOpenAIRequest scen (sessionMessages db req.session_id))])
    ∨ (∃ key req sess scen content fj, env.openaiKey = some key ∧ body = some req ∧
        findSession db req.session_id = some sess ∧
        2 ≤ (sessionMessages db req.session_id).length ∧
        findScenario db sess.scenario_id = some scen ∧
        oracle (feedbackOpenAIRequest scen (sessionMessages db req.session_id)) =
          .success content ∧
        jsonParse content = some fj ∧
        insertAccepted (mkPayload req.session_id fj) = false ∧
        feedbackTry env body db oracle now =
          fbErr notNullViolationMsg db
            [Effect.readSession req.session_id, Effect.readMessages req.session_id,
             Effect.openaiCall (feedbackOpenAIRequest scen (sessionMessages db req.session_id)),
             Effect.insertFeedback (mkPayload req.session_id fj)])
    ∨ (∃ key req sess scen content fj, env.openaiKey = some key ∧ body = some req ∧
        findSession db req.session_id = some sess ∧
        2 ≤ (sessionMessages db req.session_id).length ∧
        findScenario db sess.scenario_id = some scen ∧
        oracle (feedbackOpenAIRequest scen (sessionMessages db req.session_id)) =
          .success content ∧
        jsonParse content = some fj ∧
        insertAccepted (mkPayload req.session_id fj) = true ∧
        feedbackTry env body db oracle now =
          ⟨.ok (feedbackRowJson (mkRow db (mkPayload req.session_id fj) now)),
           applySessionUpdate
             { db with feedbacks := db.feedbacks ++ [mkRow db (mkPayload req.session_id fj) now] }
             req.session_id "completed" now,
           [Effect.readSession req.session_id, Effect.readMessages req.session_id,
            Effect.openaiCall (feedbackOpenAIRequest scen (sessionMessages db req.session_id)),
            Effect.insertFeedback (mkPayload req.session_id fj),
            Effect.updateSession req.session_id "completed" now]⟩) := by
  rcases hk : env.openaiKey with _ | key
  · exact Or.inl ⟨rfl, by simp [feedbackTry, hk]⟩
  rcases hb : body with _ | req
  · exact Or.inr (Or.inl ⟨key, rfl, rfl, by simp [feedbackTry, hk, hb]⟩)
  rcases hs : findSession db req.session_id with _ | sess
  · exact Or.inr (Or.inr (Or.inl ⟨key, req, rfl, rfl, hs, by simp [feedbackTry, hk, hb, hs]⟩))
  by_cases hlen : (sessionMessages db req.session_id).length < 2
  · exact Or.inr (Or.inr (Or.inr (Or.inl
      ⟨key, req, sess, rfl, rfl, hs, hlen, by simp [feedbackTry, hk, hb, hs, hlen]⟩)))
  have hlen2 : 2 ≤ (sessionMessages db req.session_id).length := Nat.le_of_not_lt hlen
  rcases hc : findScenario db sess.scenario_id with _ | scen
  · exact Or.inr (Or.inr (Or.inr (Or.inr (Or.inl
      ⟨key, req, sess, rfl, rfl, hs, hlen2, hc, by simp [feedbackTry, hk, hb, hs, hlen, hc]⟩))))
  rcases ho : oracle (feedbackOpenAIRequest scen (sessionMessages db req.session_id)) with content | e
  · rcases hj : jsonParse content with _ | fj
    · exact Or.inr (Or.inr (Or.inr (Or.inr (Or.inr (Or.inr (Or.inl
        ⟨key, req, sess, scen, content, rfl, rfl, hs, hlen2, hc, ho, hj,
         by simp [feedbackTry, hk, hb, hs, hlen, hc, ho, hj]⟩))))))
    · rcases hacc : insertAccepted (mkPayload req.session_id fj) with _ | _
      · exact Or.inr (Or.inr (Or.inr (Or.inr (Or.inr (Or.inr (Or.inr (Or.inl
          ⟨key, req, sess, scen, content, fj, rfl, rfl, hs, hlen2, hc, ho, hj, hacc,
           by simp [feedbackTry, feedbackInsertStep, dbInsertFeedback, hk, hb, hs, hlen, hc,
             ho, hj, hacc]⟩)))))))
      · exact Or.inr (Or.inr (Or.inr (Or.inr (Or.inr (Or.inr (Or.inr (Or.inr
          ⟨key, req, sess, scen, content, fj, rfl, rfl, hs, hlen2, hc, ho, hj, hacc,
           by simp [feedbackTry, feedbackInsertStep, dbInsertFeedback, hk, hb, hs, hlen, hc,
             ho, hj, hacc]⟩)))))))
  · exact Or.inr (Or.inr (Or.inr (Or.inr (Or.inr (Or.inl
      ⟨key, req, sess, scen, e, rfl, rfl, hs, hlen2, hc, ho,
       by simp [feedbackTry, hk, hb, hs, hlen, hc, ho]⟩)))))

/-! ## Handler plumbing -/

theorem chatHandler_post (env : Env) (body : Option ChatRequest) (db : Db) (oracle : Oracle) :
    chatHandler env "POST" body db oracle = chatDispatch db (chatTry env body db oracle) := rfl

theorem feedbackHandler_post (env : Env) (body : Option FeedbackRequest) (db : Db)
    (oracle : Oracle) (now : String) :
    feedbackHandler env "POST" body db oracle now =
      fbDispatch (feedbackTry env body db oracle now) := rfl

/-- Every trace the chat `try` body can produce is write-free. -/
theorem chatTry_trace_readonly (env : Env) (body : Option ChatRequest) (db : Db)
    (oracle : Oracle) :
    (chatTry env body db oracle).trace.all effectIsReadOrCall = true := by
  rcases chatTry_cases env body db oracle with
    ⟨_, h⟩ | ⟨_, _, _, h⟩ | ⟨_, _, _, _, _, h⟩ | ⟨_, _, _, _, _, _, _, h⟩ |
    ⟨_, _, _, _, _, _, _, _, _, _, h⟩ | ⟨_, _, _, _, _, _, _, _, _, _, h⟩ <;>
  simp [h, effectIsReadOrCall]

/-- Every model call of the chat `try` body uses max_tokens 200 and
temperature 0.8. -/
theorem chatTry_calls_budget (env : Env) (body : Option ChatRequest) (db : Db)
    (oracle : Oracle) :
    openaiCallsOk (fun q => q.maxTokens == 200 && q.temperature10 == 8)
      (chatTry env body db oracle).trace = true := by
  rcases chatTry_cases env body db oracle with
    ⟨_, h⟩ | ⟨_, _, _, h⟩ | ⟨_, _, _, _, _, h⟩ | ⟨_, _, _, _, _, _, _, h⟩ |
    ⟨_, _, _, _, _, _, _, _, _, _, h⟩ | ⟨_, _, _, _, _, _, _, _, _, _, h⟩ <;>
  simp [h, openaiCallsOk, chatOpenAIRequest]

/-- Every model call of the feedback `try` body uses max_tokens 500 and
temperature 0.7. -/
theorem feedbackTry_calls_budget (env : Env) (body : Option FeedbackRequest) (db : Db)
    (oracle : Oracle) (now : String) :
    openaiCallsOk (fun q => q.maxTokens == 500 && q.temperature10 == 7)
      (feedbackTry env body db oracle now).trace = true := by
  rcases feedbackTry_cases env body db oracle now with
    ⟨_, h⟩ | ⟨_, _, _, h⟩ | ⟨_, _, _, _, _, h⟩ | ⟨_, _, _, _, _, _, _, h⟩ |
    ⟨_, _, _, _, _, _, _, _, h⟩ | ⟨_, _, _, _, _, _, _, _, _, _, _, h⟩ |
    ⟨_, _, _, _, _, _, _, _, _, _, _, _, h⟩ | ⟨_, _, _, _, _, _, _, _, _, _, _, _, _, _, h⟩ |
    ⟨_, _, _, _, _, _, _, _, _, _, _, _, _, _, h⟩ <;>
  simp [h, fbErr, openaiCallsOk, feedbackOpenAIRequest]

/-- Session updates of the feedback `try` body always come after a
feedback insert. -/
theorem feedbackTry_update_after_insert (env : Env) (body : Option FeedbackRequest) (db : Db)
    (oracle : Oracle) (now : String) :
    updateAfterInsert false (feedbackTry env body db oracle now).trace = true := by
  rcases feedbackTry_cases env body db oracle now with
    ⟨_, h⟩ | ⟨_, _, _, h⟩ | ⟨_, _, _, _, _, h⟩ | ⟨_, _, _, _, _, _, _, h⟩ |
    ⟨_, _, _, _, _, _, _, _, h⟩ | ⟨_, _, _, _, _, _, _, _, _, _, _, h⟩ |
    ⟨_, _, _, _, _, _, _, _, _, _, _, _, h⟩ | ⟨_, _, _, _, _, _, _, _, _, _, _, _, _, _, h⟩ |
    ⟨_, _, _, _, _, _, _, _, _, _, _, _, _, _, h⟩ <;>
  simp [h, fbErr, updateAfterInsert]

/-! ## Claim theorems -/

/-- Claim C3: no invocation of the conversation orchestrator writes to
the persisted store — the store it returns is the store it was given,
and every recorded effect is a row read or a model call, so in
particular the message table is unchanged. -/
theorem chat_orchestrator_writes_nothing (env : Env) (method : String)
    (body : Option ChatRequest) (db : Db) (oracle : Oracle) :
    (chatHandler env method body db oracle).db = db ∧
    (chatHandler env method body db oracle).trace.all effectIsReadOrCall = true := by
  unfold chatHandler
  split
  · exact ⟨rfl, rfl⟩
  · rcases h : chatTry env body db oracle with ⟨res, tr⟩
    have htr := chatTry_trace_readonly env body db oracle
    rw [h] at htr
    simp only at htr
    cases res <;> exact ⟨rfl, htr⟩

/-- Claim C10: the preflight reply and every success and error reply of
both handlers carry the full permissive CORS header block. -/
theorem every_response_carries_cors (env env2 : Env) (method method2 : String)
    (cbody : Option ChatRequest) (fbody : Option FeedbackRequest) (db db2 : Db)
    (oracle oracle2 : Oracle) (now : String) :
    corsOk (chatHandler env method cbody db oracle).response.headers = true ∧
    corsOk (feedbackHandler env2 method2 fbody db2 oracle2 now).response.headers = true := by
  constructor
  · unfold chatHandler
    split
    · rfl
    · rcases h : chatTry env cbody db oracle with ⟨res, tr⟩
      cases res <;> rfl
  · unfold feedbackHandler
    split
    · rfl
    · rcases h : feedbackTry env2 fbody db2 oracle2 now with ⟨res, dbx, tr⟩
      cases res <;> rfl

/-- Claim C5 (amended): both orchestrators call the model with fixed
sampling temperatures (0.7 for feedback, 0.8 for chat), but the
feedback orchestrator's maximum output token count (500) is **higher**
than the conversation orchestrator's (200), not lower. -/
theorem model_call_budgets (env env2 : Env) (method method2 : String)
    (cbody : Option ChatRequest) (fbody : Option FeedbackRequest) (db db2 : Db)
    (oracle oracle2 : Oracle) (now : String) (scen scen2 : ScenarioRow) (creq : ChatRequest)
    (msgs msgs2 : List MessageRow) :
    openaiCallsOk (fun q => q.maxTokens == 500 && q.temperature10 == 7)
      (feedbackHandler env method fbody db oracle now).trace = true ∧
    openaiCallsOk (fun q => q.maxTokens == 200 && q.temperature10 == 8)
      (chatHandler env2 method2 cbody db2 oracle2).trace = true ∧
    (chatOpenAIRequest scen creq msgs).maxTokens <
      (feedbackOpenAIRequest scen2 msgs2).maxTokens := by
  refine ⟨?_, ?_, by show (200 : Nat) < 500; decide⟩
  · unfold feedbackHandler
    split
    · rfl
    · rcases h : feedbackTry env fbody db oracle now with ⟨res, dbx, tr⟩
      have htr := feedbackTry_calls_budget env fbody db oracle now
      rw [h] at htr
      simp only at htr
      cases res <;> exact htr
  · unfold chatHandler
    split
    · rfl
    · rcases h : chatTry env2 cbody db2 oracle2 with ⟨res, tr⟩
      have htr := chatTry_calls_budget env2 cbody db2 oracle2
      rw [h] at htr
      simp only at htr
      cases res <;> exact htr

/-- Claim C5 as stated is refuted on concrete runs: the feedback model
call uses max_tokens 500 while the chat model call uses 200, so the
feedback bound is not lower. -/
theorem feedback_budget_not_lower :
    (firstOpenaiCall (feedbackHandler envOk "POST" (some req0) db0 oracleWellFormed now0).trace).map
      (fun q => q.maxTokens) = some 500 ∧
    (firstOpenaiCall (chatHandler envOk "POST" (some creq0) db0 oracleReply).trace).map
      (fun q => q.maxTokens) = some 200 ∧
    ¬ (500 < 200) := ⟨rfl, rfl, by decide⟩

/-- Claim C2: a session that exists but has fewer than two messages
makes the feedback orchestrator reject with the "not enough
conversation" condition; no model call is made and the store is
unchanged. -/
theorem feedback_rejects_short_transcript (env : Env) (key : String) (req : FeedbackRequest)
    (sess : SessionRow) (db : Db) (oracle : Oracle) (now : String)
    (hkey : env.openaiKey = some key)
    (hsess : findSession db req.session_id = some sess)
    (hlen : (sessionMessages db req.session_id).length < 2) :
    (feedbackHandler env "POST" (some req) db oracle now).response =
      errorResponse shortTranscriptMsg ∧
    noOpenaiCall (feedbackHandler env "POST" (some req) db oracle now).trace = true ∧
    (feedbackHandler env "POST" (some req) db oracle now).db = db := by
  have ht : feedbackTry env (some req) db oracle now =
      fbErr shortTranscriptMsg db
        [Effect.readSession req.session_id, Effect.readMessages req.session_id] := by
    simp [feedbackTry, hkey, hsess, hlen]
  rw [feedbackHandler_post, ht]
  exact ⟨rfl, rfl, rfl⟩

/-- Witness for C2: a session with a single stored message is rejected
without any model call. -/
theorem feedback_rejects_short_transcript_witness :
    (feedbackHandler envOk "POST" (some req0) dbShort oracleReply now0).response =
      errorResponse shortTranscriptMsg ∧
    noOpenaiCall (feedbackHandler envOk "POST" (some req0) dbShort oracleReply now0).trace = true ∧
    (feedbackHandler envOk "POST" (some req0) dbShort oracleReply now0).db = dbShort :=
  feedback_rejects_short_transcript envOk "sk-test" req0 sess0 dbShort oracleReply now0
    rfl rfl (by decide)

/-- Claim C9: a session identifier that resolves to no session row makes
both orchestrators answer with the session-lookup error; neither calls
the model-inference API (so no upstream-API error can be returned), and
the store is unchanged. -/
theorem missing_session_yields_lookup_error (env : Env) (key : String) (creq : ChatRequest)
    (freq : FeedbackRequest) (db : Db) (oracle : Oracle) (now : String)
    (hkey : env.openaiKey = some key)
    (hc : findSession db creq.session_id = none)
    (hf : findSession db freq.session_id = none) :
    (chatHandler env "POST" (some creq) db oracle).response = errorResponse sessionNotFoundMsg ∧
    noOpenaiCall (chatHandler env "POST" (some creq) db oracle).trace = true ∧
    (feedbackHandler env "POST" (some freq) db oracle now).response =
      errorResponse sessionNotFoundMsg ∧
    noOpenaiCall (feedbackHandler env "POST" (some freq) db oracle now).trace = true ∧
    (feedbackHandler env "POST" (some freq) db oracle now).db = db := by
  have hct : chatTry env (some creq) db oracle =
      ⟨.error sessionNotFoundMsg, [Effect.readSession creq.session_id]⟩ := by
    simp [chatTry, hkey, hc]
  have hft : feedbackTry env (some freq) db oracle now =
      fbErr sessionNotFoundMsg db [Effect.readSession freq.session_id] := by
    simp [feedbackTry, hkey, hf]
  rw [chatHandler_post, feedbackHandler_post, hct, hft]
  exact ⟨rfl, rfl, rfl, rfl, rfl⟩

/-- Witness for C9: an unknown session identifier on a populated store. -/
theorem missing_session_yields_lookup_error_witness :
    (chatHandler envOk "POST" (some ⟨"nope", "hi", false⟩) db0 oracleReply).response =
      errorResponse sessionNotFoundMsg ∧
    noOpenaiCall (chatHandler envOk "POST" (some ⟨"nope", "hi", false⟩) db0 oracleReply).trace =
      true ∧
    (feedbackHandler envOk "POST" (some ⟨"nope"⟩) db0 oracleReply now0).response =
      errorResponse sessionNotFoundMsg ∧
    noOpenaiCall (feedbackHandler envOk "POST" (some ⟨"nope"⟩) db0 oracleReply now0).trace = true ∧
    (feedbackHandler envOk "POST" (some ⟨"nope"⟩) db0 oracleReply now0).db = db0 :=
  missing_session_yields_lookup_error envOk "sk-test" ⟨"nope", "hi", false⟩ ⟨"nope"⟩ db0
    oracleReply now0 rfl rfl rfl

/-- Claim C8: a model reply that fails to parse as JSON is caught and
reported as the `{error: message}` envelope with non-success status 500,
the store unchanged — the handler, a total function, neither crashes nor
leaves the request unanswered. -/
theorem malformed_model_json_is_reported (env : Env) (key : String) (req : FeedbackRequest)
    (sess : SessionRow) (scen : ScenarioRow) (db : Db) (now : String) (content : String)
    (hkey : env.openaiKey = some key)
    (hsess : findSession db req.session_id = some sess)
    (hlen : 2 ≤ (sessionMessages db req.session_id).length)
    (hscen : findScenario db sess.scenario_id = some scen)
    (hbad : jsonParse content = none) :
    (feedbackHandler env "POST" (some req) db (fun _ => .success content) now).response =
      errorResponse jsonSyntaxErrorMsg ∧
    (feedbackHandler env "POST" (some req) db (fun _ => .success content) now).response.status =
      500 ∧
    (feedbackHandler env "POST" (some req) db (fun _ => .success content) now).db = db := by
  have hnl : ¬ (sessionMessages db req.session_id).length < 2 := Nat.not_lt.mpr hlen
  have ht : feedbackTry env (some req) db (fun _ => .success content) now =
      fbErr jsonSyntaxErrorMsg db
        [Effect.readSession req.session_id, Effect.readMessages req.session_id,
         Effect.openaiCall (feedbackOpenAIRequest scen (sessionMessages db req.session_id))] := by
    simp [feedbackTry, hkey, hsess, hnl, hscen, hbad]
  rw [feedbackHandler_post, ht]
  exact ⟨rfl, rfl, rfl⟩

/-- Witness for C8: commentary text around the JSON object is rejected
by the parser and reported as the uniform error envelope. -/
theorem malformed_model_json_is_reported_witness :
    (feedbackHandler envOk "POST" (some req0) db0 oracleCommentary now0).response =
      errorResponse jsonSyntaxErrorMsg ∧
    (feedbackHandler envOk "POST" (some req0) db0 oracleCommentary now0).response.status = 500 ∧
    (feedbackHandler envOk "POST" (some req0) db0 oracleCommentary now0).db = db0 :=
  malformed_model_json_is_reported envOk "sk-test" req0 sess0 scen0 db0 now0
    "Here is my evaluation: \x7b\"clarity\":4\x7d hope it helps" rfl rfl (by decide) rfl rfl

/-- Claim C6: with a two-message conversation and a model stub echoing
the fixed well-formed payload, the feedback run succeeds and persists
exactly one feedback record whose scores object is exactly
clarity 4, empathy 3, assertiveness 5. -/
theorem wellformed_payload_roundtrip :
    2 ≤ (sessionMessages db0 "s1").length ∧
    (feedbackHandler envOk "POST" (some req0) db0 oracleWellFormed now0).response.status = 200 ∧
    (feedbackHandler envOk "POST" (some req0) db0 oracleWellFormed now0).db.feedbacks.map
      (fun r => r.scores) =
      [ScoresObj.mk (some (Json.num 4 0)) (some (Json.num 3 0)) (some (Json.num 5 0))] :=
  ⟨by decide, rfl, rfl⟩

/-- Claim C1 as stated is refuted: over a two-message session, a
successful run (status 200) can persist a feedback row whose scores
object carries none of the three fields, because the handler never
validates the parsed model reply. -/
theorem success_without_numeric_scores :
    2 ≤ (sessionMessages db0 "s1").length ∧
    (feedbackHandler envOk "POST" (some req0) db0 oracleNoScores now0).response.status = 200 ∧
    (feedbackHandler envOk "POST" (some req0) db0 oracleNoScores now0).db.feedbacks.map
      (fun r => r.scores) = [ScoresObj.mk none none none] :=
  ⟨by decide, rfl, rfl⟩

/-- Updating a session by id rewrites exactly the row that a lookup by
the same id finds. -/
theorem find?_sessionUpdate (l : List SessionRow) (sid st t : String) :
    (l.map (fun s => if s.id == sid then { s with status := st, ended_at := some t } else s)).find?
      (fun s => s.id == sid) =
      (l.find? (fun s => s.id == sid)).map
        (fun s => { s with status := st, ended_at := some t }) := by
  induction l with
  | nil => rfl
  | cons a l ih =>
    by_cases h : (a.id == sid) = true
    · have heq : a.id = sid := by rwa [beq_iff_eq] at h
      simp [List.find?_cons, h, heq]
    · have hne : ¬ a.id = sid := by simpa [beq_iff_eq] using h
      simp only [List.map_cons, List.find?_cons, h, hne, if_false, ite_false, Bool.false_eq_true]
      simpa [h, hne] using ih

/-- A 200 response of the feedback endpoint comes from a successful
`try` body. -/
theorem feedback_status200_of_try (env : Env) (body : Option FeedbackRequest) (db : Db)
    (oracle : Oracle) (now : String)
    (hok : (feedbackHandler env "POST" body db oracle now).response.status = 200) :
    ∃ j db2 tr, feedbackTry env body db oracle now = ⟨.ok j, db2, tr⟩ := by
  rcases h : feedbackTry env body db oracle now with ⟨res, db2, tr⟩
  cases res with
  | ok j => exact ⟨j, db2, tr, rfl⟩
  | error m =>
    rw [feedbackHandler_post, h] at hok
    simp [fbDispatch, errorResponse] at hok

/-- Inversion of a successful feedback `try` body: the exact store,
response body and trace it must have produced. -/
theorem feedbackTry_ok_inv (env : Env) (body : Option FeedbackRequest) (db : Db)
    (oracle : Oracle) (now : String) (j : Json) (db2 : Db) (tr : List Effect)
    (h : feedbackTry env body db oracle now = ⟨.ok j, db2, tr⟩) :
    ∃ key req sess scen content fj, env.openaiKey = some key ∧ body = some req ∧
      findSession db req.session_id = some sess ∧
      2 ≤ (sessionMessages db req.session_id).length ∧
      findScenario db sess.scenario_id = some scen ∧
      oracle (feedbackOpenAIRequest scen (sessionMessages db req.session_id)) =
        .success content ∧
      jsonParse content = some fj ∧
      insertAccepted (mkPayload req.session_id fj) = true ∧
      j = feedbackRowJson (mkRow db (mkPayload req.session_id fj) now) ∧
      db2 = applySessionUpdate
        { db with feedbacks := db.feedbacks ++ [mkRow db (mkPayload req.session_id fj) now] }
        req.session_id "completed" now ∧
      tr = [Effect.readSession req.session_id, Effect.readMessages req.session_id,
            Effect.openaiCall (feedbackOpenAIRequest scen (sessionMessages db req.session_id)),
            Effect.insertFeedback (mkPayload req.session_id fj),
            Effect.updateSession req.session_id "completed" now] := by
  rcases feedbackTry_cases env body db oracle now with
    ⟨_, hcase⟩ | ⟨_, _, _, hcase⟩ | ⟨_, _, _, _, _, hcase⟩ | ⟨_, _, _, _, _, _, _, hcase⟩ |
    ⟨_, _, _, _, _, _, _, _, hcase⟩ | ⟨_, _, _, _, _, _, _, _, _, _, _, hcase⟩ |
    ⟨_, _, _, _, _, _, _, _, _, _, _, _, hcase⟩ |
    ⟨_, _, _, _, _, _, _, _, _, _, _, _, _, _, hcase⟩ |
    ⟨key, req, sess, scen, content, fj, hk, hb, hs, hl2, hsc, ho, hj, hacc, hcase⟩ <;>
    rw [hcase] at h
  case _ => simp only [fbErr, FbTryResult.mk.injEq] at h; exact absurd h.1 (by simp)
  case _ => simp only [fbErr, FbTryResult.mk.injEq] at h; exact absurd h.1 (by simp)
  case _ => simp only [fbErr, FbTryResult.mk.injEq] at h; exact absurd h.1 (by simp)
  case _ => simp only [fbErr, FbTryResult.mk.injEq] at h; exact absurd h.1 (by simp)
  case _ => simp only [fbErr, FbTryResult.mk.injEq] at h; exact absurd h.1 (by simp)
  case _ => simp only [fbErr, FbTryResult.mk.injEq] at h; exact absurd h.1 (by simp)
  case _ => simp only [fbErr, FbTryResult.mk.injEq] at h; exact absurd h.1 (by simp)
  case _ => simp only [fbErr, FbTryResult.mk.injEq] at h; exact absurd h.1 (by simp)
  case _ =>
    simp only [FbTryResult.mk.injEq, Except.ok.injEq] at h
    obtain ⟨hj2, hdb2, htr2⟩ := h
    exact ⟨key, req, sess, scen, content, fj, hk, hb, hs, hl2, hsc, ho, hj, hacc,
      hj2.symm, hdb2.symm, htr2.symm⟩

/-- Claim C1 (amended): for a session with at least two messages, a
successful feedback run appends exactly one feedback row to the store;
that row's scores object carries exactly the values found at keys
clarity, empathy and assertiveness of the JSON-parsed model reply — so
the three fields are present and numeric precisely when the reply
supplies them, nothing validates this — and the session row is left
with status completed and the current time as its non-null end
timestamp. -/
theorem feedback_success_completes_session (env : Env) (req : FeedbackRequest) (db : Db)
    (oracle : Oracle) (now : String)
    (hlen : 2 ≤ (sessionMessages db req.session_id).length)
    (hok : (feedbackHandler env "POST" (some req) db oracle now).response.status = 200) :
    ∃ sess scen content fj,
      findSession db req.session_id = some sess ∧
      findScenario db sess.scenario_id = some scen ∧
      oracle (feedbackOpenAIRequest scen (sessionMessages db req.session_id)) =
        .success content ∧
      jsonParse content = some fj ∧
      (feedbackHandler env "POST" (some req) db oracle now).db.feedbacks =
        db.feedbacks ++ [mkRow db (mkPayload req.session_id fj) now] ∧
      (mkRow db (mkPayload req.session_id fj) now).scores = mkScores fj ∧
      findSession (feedbackHandler env "POST" (some req) db oracle now).db req.session_id =
        some { sess with status := "completed", ended_at := some now } := by
  obtain ⟨j, db2, tr, hsucc⟩ := feedback_status200_of_try env (some req) db oracle now hok
  obtain ⟨key, req2, sess, scen, content, fj, hk, hb, hs, hl2, hsc, ho, hj, hacc, hjeq, hdbeq,
    htreq⟩ := feedbackTry_ok_inv env (some req) db oracle now j db2 tr hsucc
  obtain rfl : req = req2 := Option.some.inj hb
  have hout : (feedbackHandler env "POST" (some req) db oracle now).db = db2 := by
    rw [feedbackHandler_post, hsucc]
    rfl
  refine ⟨sess, scen, content, fj, hs, hsc, ho, hj, ?_, rfl, ?_⟩
  · rw [hout, hdbeq]
    rfl
  · rw [hout, hdbeq]
    simp only [findSession, applySessionUpdate]
    rw [find?_sessionUpdate]
    rw [show List.find? (fun s => s.id == req.session_id) db.sessions = some sess from hs]
    rfl

/-- Witness for the amended C1: the round-trip fixture run succeeds and
exhibits all components of the conclusion. -/
theorem feedback_success_completes_session_witness :
    ∃ sess scen content fj,
      findSession db0 req0.session_id = some sess ∧
      findScenario db0 sess.scenario_id = some scen ∧
      oracleWellFormed (feedbackOpenAIRequest scen (sessionMessages db0 req0.session_id)) =
        .success content ∧
      jsonParse content = some fj ∧
      (feedbackHandler envOk "POST" (some req0) db0 oracleWellFormed now0).db.feedbacks =
        db0.feedbacks ++ [mkRow db0 (mkPayload req0.session_id fj) now0] ∧
      (mkRow db0 (mkPayload req0.session_id fj) now0).scores = mkScores fj ∧
      findSession (feedbackHandler envOk "POST" (some req0) db0 oracleWellFormed now0).db
        req0.session_id = some { sess0 with status := "completed", ended_at := some now0 } := by
  have h := feedback_success_completes_session envOk req0 db0 oracleWellFormed now0
    (by decide) rfl
  obtain ⟨sess, scen, content, fj, hs, hsc, ho, hj, h1, h2, h3⟩ := h
  have hsess : sess = sess0 := by
    have : findSession db0 req0.session_id = some sess0 := rfl
    exact Option.some.inj (this ▸ hs.symm)
  exact ⟨sess, scen, content, fj, hs, hsc, ho, hj, h1, h2, hsess ▸ h3⟩

/-- Claim C4: in the feedback orchestrator the feedback insert strictly
precedes the session update, and when the store rejects the insert the
insert error is propagated as the response while the store — in
particular its session rows — is unchanged and no update is issued. -/
theorem insert_precedes_update (env : Env) (method : String) (body : Option FeedbackRequest)
    (db : Db) (oracle : Oracle) (now : String) :
    updateAfterInsert false (feedbackHandler env method body db oracle now).trace = true ∧
    (hasFailedInsert (feedbackHandler env method body db oracle now).trace = true →
      (feedbackHandler env method body db oracle now).response =
        errorResponse notNullViolationMsg ∧
      (feedbackHandler env method body db oracle now).db = db ∧
      hasUpdate (feedbackHandler env method body db oracle now).trace = false) := by
  unfold feedbackHandler
  split
  · exact ⟨rfl, fun h => Bool.noConfusion h⟩
  · rcases feedbackTry_cases env body db oracle now with
      ⟨_, hcase⟩ | ⟨_, _, _, hcase⟩ | ⟨_, _, _, _, _, hcase⟩ | ⟨_, _, _, _, _, _, _, hcase⟩ |
      ⟨_, _, _, _, _, _, _, _, hcase⟩ | ⟨_, _, _, _, _, _, _, _, _, _, _, hcase⟩ |
      ⟨_, _, _, _, _, _, _, _, _, _, _, _, hcase⟩ |
      ⟨_, _, _, _, _, _, _, _, _, _, _, _, _, hacc, hcase⟩ |
      ⟨_, _, _, _, _, _, _, _, _, _, _, _, _, hacc, hcase⟩ <;>
    rw [hcase] <;>
    first
    | simp [fbDispatch, fbErr, updateAfterInsert, hasFailedInsert, hasUpdate, hacc]
    | simp [fbDispatch, fbErr, updateAfterInsert, hasFailedInsert, hasUpdate]

/-- Witness for C4: a parsed reply without a summary makes the insert
violate NOT NULL; the error is propagated, the store is untouched and
no session update is issued. -/
theorem insert_precedes_update_witness :
    hasFailedInsert (feedbackHandler envOk "POST" (some req0) db0 oracleNoSummary now0).trace =
      true ∧
    (feedbackHandler envOk "POST" (some req0) db0 oracleNoSummary now0).response =
      errorResponse notNullViolationMsg ∧
    (feedbackHandler envOk "POST" (some req0) db0 oracleNoSummary now0).db = db0 ∧
    hasUpdate (feedbackHandler envOk "POST" (some req0) db0 oracleNoSummary now0).trace = false :=
  ⟨rfl, (insert_precedes_update envOk "POST" (some req0) db0 oracleNoSummary now0).2 rfl⟩

/-- Claim C7 as stated is refuted: on a non-opening turn carrying an
empty user message the sent list omits the user message, so it differs
from the list the claim describes (history followed by the user message
appended last). -/
theorem empty_user_message_not_appended :
    (firstOpenaiCall (chatHandler envOk "POST" (some creqEmpty) db0 oracleReply).trace).map
      (fun q => q.messages) =
      some (chatMessages scen0 creqEmpty (sessionMessages db0 "s1")) ∧
    chatMessages scen0 creqEmpty (sessionMessages db0 "s1") ≠
      chatMessagesPerClaim scen0 creqEmpty (sessionMessages db0 "s1") := by
  refine ⟨rfl, fun h => ?_⟩
  have := congrArg List.length h
  simp [chatMessages, chatMessagesPerClaim, creqEmpty] at this

/-- Claim C7 (amended): every chat-completion request the conversation
orchestrator sends is the system instruction — embedding the scenario
title, persona and objective, with the introduce-yourself clause
exactly on the opening turn — followed by the prior session messages
sorted by creation time oldest first, followed by the new user message
appended last only when the turn is not the opening one and the user
message is non-empty (the code's truthiness guard). -/
theorem chat_prompt_assembly (env : Env) (req : ChatRequest) (db : Db) (oracle : Oracle)
    (q : OpenAIRequest)
    (h : firstOpenaiCall (chatHandler env "POST" (some req) db oracle).trace = some q) :
    ∃ sess scen,
      findSession db req.session_id = some sess ∧
      findScenario db sess.scenario_id = some scen ∧
      q.messages = ChatMsg.mk "system" (chatSystemPrompt scen req.is_initial) ::
        (sessionMessages db req.session_id).map msgToChatMsg ++
        (if !req.is_initial && req.user_message != ""
          then [ChatMsg.mk "user" req.user_message] else []) ∧
      List.Sorted msgLE (sessionMessages db req.session_id) ∧
      chatSystemPrompt scen req.is_initial =
        sysPromptPre ++ scen.title ++ sysPromptRole ++ scen.ai_persona ++ sysPromptObjective ++
          scen.objective ++ sysPromptTail ++
          (if req.is_initial then sysPromptInitialTail else sysPromptRespondTail) := by
  rw [chatHandler_post] at h
  rcases chatTry_cases env (some req) db oracle with
    ⟨_, hcase⟩ | ⟨_, _, _, hcase⟩ | ⟨_, _, _, _, _, hcase⟩ | ⟨_, _, _, _, _, _, _, hcase⟩ |
    ⟨_, req2, sess, scen, e, hk, hb, hs, hsc, ho, hcase⟩ |
    ⟨_, req2, sess, scen, c, hk, hb, hs, hsc, ho, hcase⟩ <;>
    rw [hcase] at h
  case _ => simp [chatDispatch, firstOpenaiCall] at h
  case _ => simp [chatDispatch, firstOpenaiCall] at h
  case _ => simp [chatDispatch, firstOpenaiCall] at h
  case _ => simp [chatDispatch, firstOpenaiCall] at h
  case _ =>
    obtain rfl : req = req2 := Option.some.inj hb
    simp only [chatDispatch, firstOpenaiCall, Option.some.injEq] at h
    subst h
    exact ⟨sess, scen, hs, hsc, rfl, List.sorted_insertionSort msgLE _, rfl⟩
  case _ =>
    obtain rfl : req = req2 := Option.some.inj hb
    simp only [chatDispatch, firstOpenaiCall, Option.some.injEq] at h
    subst h
    exact ⟨sess, scen, hs, hsc, rfl, List.sorted_insertionSort msgLE _, rfl⟩

/-- Witness for the amended C7: the fixture chat turn produces exactly
the described message list. -/
theorem chat_prompt_assembly_witness :
    ∃ sess scen,
      findSession db0 creq0.session_id = some sess ∧
      findScenario db0 sess.scenario_id = some scen ∧
      (chatOpenAIRequest scen0 creq0 (sessionMessages db0 creq0.session_id)).messages =
        ChatMsg.mk "system" (chatSystemPrompt scen creq0.is_initial) ::
        (sessionMessages db0 creq0.session_id).map msgToChatMsg ++
        (if !creq0.is_initial && creq0.user_message != ""
          then [ChatMsg.mk "user" creq0.user_message] else []) ∧
      List.Sorted msgLE (sessionMessages db0 creq0.session_id) ∧
      chatSystemPrompt scen creq0.is_initial =
        sysPromptPre ++ scen.title ++ sysPromptRole ++ scen.ai_persona ++ sysPromptObjective ++
          scen.objective ++ sysPromptTail ++
          (if creq0.is_initial then sysPromptInitialTail else sysPromptRespondTail) :=
  chat_prompt_assembly envOk creq0 db0 oracleReply
    (chatOpenAIRequest scen0 creq0 (sessionMessages db0 creq0.session_id)) rfl
